import Mathlib

/-!
Verification development for the sonalyze_agent repository.

The Python sources under `src/` are shallowly embedded below:
* `src/config.py`    → the DPS grade scale, sound-family tables and lookups;
* `src/aggregator.py`→ the statistics pipeline over the loaded table;
* `src/data_loader.py` → validation and table construction over parsed JSON;
* `src/llm_client.py`→ the deterministic fallback recommendations and
  cost aggregation (the network call itself is an external boundary and is
  modelled as an opaque response value).

Python floats are modelled as rationals (`ℚ`), `round(x, n)` as rounding of
`10^n * x` to the nearest integer (Mathlib `round`; the half-integer tie case
never occurs in the concrete inputs used below), Python `None` as `Option`,
and exceptions as `Except`.
-/

/-! ### Rounding helpers (Python `round(x, ndigits)`) -/

/-- Python `round(x, 1)` on the rational model. -/
def round1 (x : ℚ) : ℚ := (round (10 * x) : ℤ) / 10

/-- Python `round(x, 2)` on the rational model. -/
def round2 (x : ℚ) : ℚ := (round (100 * x) : ℤ) / 100

/-- Python `round(x, 3)` on the rational model. -/
def round3 (x : ℚ) : ℚ := (round (1000 * x) : ℤ) / 1000

/-- Arithmetic mean of a list of rationals (`np.mean` / pandas `.mean()`);
junk value `0` on the empty list, which is never reached where used. -/
def pymean (l : List ℚ) : ℚ := l.sum / l.length

/-- Maximum of a list of rationals (Python `max`); junk value `0` on the
empty list, which is never reached where used. -/
def pymax : List ℚ → ℚ
  | [] => 0
  | a :: t => t.foldl max a

/-- Minimum of a list of rationals (pandas `.min()`); junk value `0` on the
empty list. -/
def pymin : List ℚ → ℚ
  | [] => 0
  | a :: t => t.foldl min a

/-! ### `src/config.py` -/

/-- `DPS_SCALE` from `config.py`: the seven grade bands in insertion order,
each with its inclusive upper dB bound (`max_db`).  The display-only fields
of each band (`label`, `color`, `description`) are omitted: no modelled
function reads them. -/
def DPS_SCALE : List (String × ℚ) :=
  [("A", 20), ("B", 30), ("C", 45), ("D", 60), ("E", 80), ("F", 100), ("G", 120)]

/-- `get_note_from_db` from `config.py`: first band (in `DPS_SCALE` insertion
order) whose `max_db` bound is at least the value; `"G"` by default when the
value exceeds every bound. -/
def get_note_from_db (db_value : ℚ) : String :=
  match DPS_SCALE.find? (fun p => decide (db_value ≤ p.2)) with
  | some p => p.1
  | none => "G"

/-- `SOUND_FAMILIES` from `config.py`, verbatim: family name to the list of
AST labels belonging to it, in insertion order. -/
def SOUND_FAMILIES : List (String × List String) :=
  [ ("circulation",
      ["Vehicle", "Car", "Engine", "Motorcycle", "Truck",
       "Traffic noise, roadway noise", "Accelerating, revving, vroom",
       "Motor vehicle (road)", "Bus", "Car passing by",
       "Race car, auto racing", "Tire squeal", "Skidding",
       "Vehicle horn, car horn, honking", "Emergency vehicle",
       "Ambulance (siren)", "Police car (siren)",
       "Fire engine, fire truck (siren)"]),
    ("transport",
      ["Train", "Rail transport", "Train whistle", "Train horn",
       "Subway, metro, underground", "Aircraft", "Aircraft engine",
       "Jet engine", "Helicopter", "Fixed-wing aircraft, airplane"]),
    ("voisinage",
      ["Speech", "Male speech, man speaking", "Female speech, woman speaking",
       "Child speech, kid speaking", "Conversation", "Narration, monologue",
       "Shout", "Yell", "Screaming", "Children shouting", "Laughter",
       "Crying, sobbing", "Baby cry, infant cry", "Crowd", "Chatter",
       "Hubbub, speech noise, speech babble", "Children playing",
       "Walk, footsteps", "Run", "Clapping", "Applause"]),
    ("musique",
      ["Music", "Singing", "Musical instrument", "Pop music", "Rock music",
       "Hip hop music", "Classical music", "Jazz", "Electronic music",
       "Guitar", "Piano", "Drum", "Drum kit", "Bass guitar"]),
    ("interieur",
      ["Inside, small room", "Inside, large room or hall",
       "Inside, public space", "Door", "Knock", "Slam", "Sliding door",
       "Cupboard open or close", "Drawer open or close", "Squeak", "Creak"]),
    ("electromenager",
      ["Vacuum cleaner", "Blender", "Microwave oven", "Hair dryer",
       "Mechanical fan", "Air conditioning", "Washing machine",
       "Dishes, pots, and pans", "Cutlery, silverware", "Chopping (food)",
       "Frying (food)", "Water tap, faucet", "Toilet flush", "Boiling"]),
    ("nature",
      ["Bird", "Bird vocalization, bird call, bird song", "Chirp, tweet",
       "Rain", "Raindrop", "Rain on surface", "Thunder", "Thunderstorm",
       "Wind", "Rustling leaves", "Water", "Stream", "Ocean", "Waves, surf"]),
    ("travaux",
      ["Drill", "Hammer", "Sawing", "Power tool", "Jackhammer", "Sanding",
       "Filing (rasp)", "Chainsaw", "Lawn mower"]),
    ("alertes",
      ["Alarm", "Alarm clock", "Siren", "Smoke detector, smoke alarm",
       "Fire alarm", "Car alarm", "Buzzer", "Telephone bell ringing",
       "Ringtone"]),
    ("animaux",
      ["Dog", "Bark", "Cat", "Meow", "Purr", "Domestic animals, pets"]) ]

/-- `NORMAL_SOUNDS` from `config.py`, verbatim. -/
def NORMAL_SOUNDS : List String :=
  ["Bird", "Bird vocalization, bird call, bird song", "Chirp, tweet",
   "Rain", "Raindrop", "Wind", "Rustling leaves", "Music", "Singing",
   "Speech", "Conversation", "Water", "Stream", "Clock", "Tick-tock"]

/-- `PROBLEMATIC_SOUNDS` from `config.py`, verbatim. -/
def PROBLEMATIC_SOUNDS : List String :=
  ["Vehicle", "Car", "Truck", "Motorcycle", "Traffic noise, roadway noise",
   "Aircraft", "Jet engine", "Train", "Drill", "Jackhammer", "Hammer",
   "Power tool", "Chainsaw", "Alarm", "Siren", "Car alarm",
   "Smoke detector, smoke alarm", "Screaming", "Shout", "Children shouting",
   "Baby cry, infant cry", "Dog", "Bark"]

/-- `get_sound_family` from `config.py`: first family whose label list
contains the label, else `"autres"`. -/
def get_sound_family (label : String) : String :=
  match SOUND_FAMILIES.find? (fun p => p.2.contains label) with
  | some p => p.1
  | none => "autres"

/-- `is_sound_problematic` from `config.py`. -/
def is_sound_problematic (label : String) : Bool :=
  PROBLEMATIC_SOUNDS.contains label

/-- `is_sound_normal` from `config.py`. -/
def is_sound_normal (label : String) : Bool :=
  NORMAL_SOUNDS.contains label

/-- Python membership test `label in labels` applied to the possibly-`None`
`top_label` column: `None` is in no label list, so it maps to `"autres"`,
`is_problematic = False`, `is_normal = False`. -/
def get_sound_family_opt : Option String → String
  | none => "autres"
  | some l => get_sound_family l

/-! ### The loaded table (`DataLoader.to_dataframe` output consumed by
`src/aggregator.py`) -/

/-- A parsed timestamp (`timestamp_dt` column): naive local datetime with
second precision. -/
structure Timestamp where
  year : Nat
  month : Nat
  day : Nat
  hour : Nat
  minute : Nat
  second : Nat
deriving DecidableEq, Repr

/-- Chronological (lexicographic) order on parsed timestamps. -/
def Timestamp.le (a b : Timestamp) : Bool :=
  if a.year ≠ b.year then decide (a.year < b.year)
  else if a.month ≠ b.month then decide (a.month < b.month)
  else if a.day ≠ b.day then decide (a.day < b.day)
  else if a.hour ≠ b.hour then decide (a.hour < b.hour)
  else if a.minute ≠ b.minute then decide (a.minute < b.minute)
  else decide (a.second ≤ b.second)

/-- One row of the validated table, with the columns the aggregator reads:
the raw `timestamp` string, parsed `timestamp_dt`, `LAeq_segment_dB`,
`LAeq_rating`, derived `hour`, and the derived primary label/probability
(`top_label` is `None` when `top_5_labels` was empty). -/
structure Row where
  timestamp : String
  timestamp_dt : Timestamp
  laeq : ℚ
  rating : String
  hour : Nat
  top_label : Option String
  top_prob : ℚ
deriving DecidableEq, Repr

/-- The loader's derived `is_night` column: `hour >= 22 or hour < 7`. -/
def Row.is_night (s : Row) : Bool :=
  decide (22 ≤ s.hour) || decide (s.hour < 7)

/-! ### `src/aggregator.py` — grade distribution -/

/-- The fixed rating alphabet `["A", ..., "G"]` used by
`calculate_rating_distribution`. -/
def all_ratings : List String := ["A", "B", "C", "D", "E", "F", "G"]

/-- `calculate_rating_distribution`: occurrence count of each of the seven
letters in the `LAeq_rating` column, zero-filled, in `all_ratings` order.
(The Python builds `value_counts().to_dict()` and then re-keys on
`all_ratings` with default `0`, which is exactly per-letter counting.) -/
def calculate_rating_distribution (df : List Row) : List (String × Nat) :=
  all_ratings.map (fun r => (r, df.countP (fun s => s.rating == r)))

/-- Sum of the values of a string-keyed map rendered as an association
list (Python `sum(d.values())`). -/
def sumValsN (l : List (String × Nat)) : Nat := (l.map Prod.snd).sum

/-- Sum of the rational values of an association list. -/
def sumValsQ (l : List (String × ℚ)) : ℚ := (l.map Prod.snd).sum

/-- `calculate_rating_percentages`: percentage (rounded to 1 decimal) of each
letter among the rated segments; all-zero when the total is zero. -/
def calculate_rating_percentages (df : List Row) : List (String × ℚ) :=
  let distribution := calculate_rating_distribution df
  let total := sumValsN distribution
  if total = 0 then distribution.map (fun p => (p.1, (0 : ℚ)))
  else distribution.map (fun p => (p.1, round1 ((p.2 : ℚ) / (total : ℚ) * 100)))

/-- Total of the seven per-letter counts (the divisor of
`calculate_rating_percentages`). -/
def ratingTotal (df : List Row) : Nat :=
  sumValsN (calculate_rating_distribution df)

/-! ### `src/aggregator.py` — top sounds and report classification -/

/-- Distinct elements of a list in first-occurrence order, with an
accumulator of already-seen elements. -/
def uniqFirstAux {α : Type _} [DecidableEq α] (seen : List α) : List α → List α
  | [] => []
  | a :: t => if a ∈ seen then uniqFirstAux seen t
              else a :: uniqFirstAux (a :: seen) t

/-- Distinct elements of a list in first-occurrence order (the keys produced
by a pandas `value_counts` / `groupby` over the list, before sorting). -/
def uniqFirst {α : Type _} [DecidableEq α] (l : List α) : List α :=
  uniqFirstAux [] l

/-- pandas `Series.value_counts()` over a list of strings: distinct values
with their multiplicities, sorted by count descending.  pandas leaves the
relative order of equal counts implementation-defined; the model fixes the
stable choice (first-occurrence order among ties). -/
def value_counts (items : List String) : List (String × Nat) :=
  ((uniqFirst items).map (fun l => (l, items.count l))).insertionSort
    (fun a b => b.2 ≤ a.2)

/-- One entry of the `calculate_top_sounds` result (all fields of the Python
dict). -/
structure SoundInfo where
  label : String
  count : Nat
  percentage : ℚ
  avg_score : ℚ
  avg_db : ℚ
  note : String
  family : String
  is_problematic : Bool
  is_normal : Bool
deriving DecidableEq, Repr

/-- Rows of the table whose primary label equals `l` (one group of the
Python `groupby("top_label")`, which drops `None`). -/
def labelRows (df : List Row) (l : String) : List Row :=
  df.filter (fun s => s.top_label == some l)

/-- One `calculate_top_sounds` entry: the per-label aggregates.  As in the
source, the grade `note` is derived from the un-rounded mean dB, while the
reported `avg_db` is rounded; the percentage divisor is the full table
length (including rows with a `None` label). -/
def mkSoundInfo (df : List Row) (l : String) (count : Nat) : SoundInfo :=
  let rows := labelRows df l
  let avg_db := pymean (rows.map Row.laeq)
  { label := l
    count := count
    percentage := round1 ((count : ℚ) / (df.length : ℚ) * 100)
    avg_score := round3 (pymean (rows.map Row.top_prob))
    avg_db := round1 avg_db
    note := get_note_from_db avg_db
    family := get_sound_family l
    is_problematic := is_sound_problematic l
    is_normal := is_sound_normal l }

/-- `calculate_top_sounds` from `aggregator.py`: empty on the empty table,
else the `top_n` most frequent primary labels with their aggregates. -/
def calculate_top_sounds (df : List Row) (top_n : Nat) : List SoundInfo :=
  match df with
  | [] => []
  | _ => ((value_counts (df.filterMap Row.top_label)).take top_n).map
      (fun p => mkSoundInfo df p.1 p.2)

/-- `calculate_top_sounds_by_period` from `aggregator.py`: the same over the
day (`"jour"`) or night subset; empty list when the subset is empty. -/
def calculate_top_sounds_by_period (df : List Row) (period : String) (top_n : Nat) :
    List SoundInfo :=
  let df_period := if period = "jour" then df.filter (fun s => !s.is_night)
                   else df.filter Row.is_night
  match df_period with
  | [] => []
  | _ => calculate_top_sounds df_period top_n

/-- Result of `classify_sounds_for_report`. -/
structure Classification where
  normaux : List String
  exceptionnels : List String
  problematiques_frequents : List String
deriving DecidableEq, Repr

/-- Loop body of `classify_sounds_for_report`: route one top sound into the
buckets.  A problematic sound goes to `exceptionnels`, and additionally to
`problematiques_frequents` when its percentage exceeds 5. -/
def classifyStep (st : List String × List String × List String)
    (sound : SoundInfo) : List String × List String × List String :=
  let (n, e, p) := st
  if sound.is_normal then (n ++ [sound.label], e, p)
  else if sound.is_problematic then
    (n, e ++ [sound.label], if 5 < sound.percentage then p ++ [sound.label] else p)
  else if 10 < sound.percentage then (n ++ [sound.label], e, p)
  else (n, e ++ [sound.label], p)

/-- `classify_sounds_for_report` from `aggregator.py`: triage of the top 30
sounds, with `normaux` and `exceptionnels` capped at 10. -/
def classify_sounds_for_report (df : List Row) : Classification :=
  let st := (calculate_top_sounds df 30).foldl classifyStep ([], [], [])
  { normaux := st.1.take 10
    exceptionnels := st.2.1.take 10
    problematiques_frequents := st.2.2 }

/-! ### `src/aggregator.py` — event detection -/

/-- One detected sound event (all fields of the Python dict).  `label` keeps
the `Option` type of the `top_label` column it is copied from. -/
structure SEvent where
  label : Option String
  start_time : String
  end_time : String
  duration_segments : Nat
  duration_seconds : Nat
  avg_db : ℚ
  max_db : ℚ
  avg_score : ℚ
  family : String
  is_problematic : Bool
deriving DecidableEq, Repr

/-- Python truthiness of the accumulated label in
`if current_label and len(current_segments) >= min_consecutive`:
`None` and the empty string are falsy. -/
def truthyLabel : Option String → Bool
  | none => false
  | some s => !(s == "")

/-- Flush one accumulated run into an event (the dict literal appended by
`identify_sound_events`). -/
def mkEvent (lbl : Option String) (segs : List Row) : SEvent :=
  { label := lbl
    start_time := ((segs.head?).map Row.timestamp).getD ""
    end_time := ((segs.getLast?).map Row.timestamp).getD ""
    duration_segments := segs.length
    duration_seconds := segs.length * 9
    avg_db := round1 (pymean (segs.map Row.laeq))
    max_db := round1 (pymax (segs.map Row.laeq))
    avg_score := round3 (pymean (segs.map Row.top_prob))
    family := get_sound_family_opt lbl
    is_problematic := match lbl with
      | some s => is_sound_problematic s
      | none => false }

/-- Loop body of `identify_sound_events`: extend the current run when the
label repeats (Python `None == None` is `True`), otherwise flush the run —
but only when the accumulated label is truthy and the run is long enough —
and restart from the current row. -/
def eventStep (mc : Nat) (st : Option String × List Row × List SEvent)
    (row : Row) : Option String × List Row × List SEvent :=
  let (cl, cs, evs) := st
  if row.top_label == cl then (cl, cs ++ [row], evs)
  else if truthyLabel cl && decide (mc ≤ cs.length) then
    (row.top_label, [row], evs ++ [mkEvent cl cs])
  else (row.top_label, [row], evs)

/-- `identify_sound_events` from `aggregator.py`: one forward pass in row
order, flushing the final run under the same guard. -/
def identify_sound_events (df : List Row) (mc : Nat) : List SEvent :=
  let st := df.foldl (eventStep mc) (none, [], [])
  if truthyLabel st.1 && decide (mc ≤ st.2.1.length) then
    st.2.2 ++ [mkEvent st.1 st.2.1]
  else st.2.2

/-! ### `src/aggregator.py` — global / period / family / hourly statistics -/

/-- pandas `.median()`: middle of the sorted values, or the mean of the two
middle values for an even count; junk `0` on the empty list. -/
def pymedian (l : List ℚ) : ℚ :=
  let s := l.insertionSort (fun a b => a ≤ b)
  let n := l.length
  if n = 0 then 0
  else if n % 2 = 1 then s.getD (n / 2) 0
  else (s.getD (n / 2 - 1) 0 + s.getD (n / 2) 0) / 2

/-- Earliest timestamp of a list (pandas `.min()` on `timestamp_dt`). -/
def tsMin : List Timestamp → Option Timestamp
  | [] => none
  | a :: t => some (t.foldl (fun acc x => if Timestamp.le acc x then acc else x) a)

/-- Latest timestamp of a list (pandas `.max()` on `timestamp_dt`). -/
def tsMax : List Timestamp → Option Timestamp
  | [] => none
  | a :: t => some (t.foldl (fun acc x => if Timestamp.le acc x then x else acc) a)

/-- Zero-padded 2-digit decimal rendering. -/
def pad2 (n : Nat) : String := if n < 10 then "0" ++ toString n else toString n

/-- Zero-padded 4-digit decimal rendering. -/
def pad4 (n : Nat) : String :=
  if n < 10 then "000" ++ toString n
  else if n < 100 then "00" ++ toString n
  else if n < 1000 then "0" ++ toString n
  else toString n

/-- `strftime("%Y-%m-%d %H:%M")` on a parsed timestamp. -/
def strftime_minute (t : Timestamp) : String :=
  pad4 t.year ++ "-" ++ pad2 t.month ++ "-" ++ pad2 t.day ++ " "
    ++ pad2 t.hour ++ ":" ++ pad2 t.minute

/-- Result of `calculate_global_stats` (the `global` entry of the bundle). -/
structure GlobalStats where
  total_segments : Nat
  duration_hours : ℚ
  date_start : String
  date_end : String
  db_mean : ℚ
  db_min : ℚ
  db_max : ℚ
  db_median : ℚ
  note_globale : String
deriving DecidableEq, Repr

/-- `calculate_global_stats` from `aggregator.py`.  On the empty table the
Python crashes (`strftime` on the NaN min-timestamp); modelled as `none`.
The overall grade is derived from the un-rounded mean. -/
def calculate_global_stats (df : List Row) : Option GlobalStats :=
  match tsMin (df.map Row.timestamp_dt), tsMax (df.map Row.timestamp_dt) with
  | some tmin, some tmax => some
      { total_segments := df.length
        duration_hours := round2 ((df.length : ℚ) * 9 / 3600)
        date_start := strftime_minute tmin
        date_end := strftime_minute tmax
        db_mean := round1 (pymean (df.map Row.laeq))
        db_min := round1 (pymin (df.map Row.laeq))
        db_max := round1 (pymax (df.map Row.laeq))
        db_median := round1 (pymedian (df.map Row.laeq))
        note_globale := get_note_from_db (pymean (df.map Row.laeq)) }
  | _, _ => none

/-- One period entry of `calculate_day_night_stats`: all stats `None` with
count `0` on an empty period. -/
structure PeriodStats where
  mean : Option ℚ
  min : Option ℚ
  max : Option ℚ
  count : Nat
deriving DecidableEq, Repr

/-- Inner `stats_for_period` of `calculate_day_night_stats`. -/
def stats_for_period (data : List Row) : PeriodStats :=
  match data with
  | [] => { mean := none, min := none, max := none, count := 0 }
  | _ => { mean := some (round1 (pymean (data.map Row.laeq)))
           min := some (round1 (pymin (data.map Row.laeq)))
           max := some (round1 (pymax (data.map Row.laeq)))
           count := data.length }

/-- `calculate_day_night_stats` from `aggregator.py`: (`jour`, `nuit`). -/
def calculate_day_night_stats (df : List Row) : PeriodStats × PeriodStats :=
  (stats_for_period (df.filter (fun s => !s.is_night)),
   stats_for_period (df.filter Row.is_night))

/-- `calculate_family_distribution` from `aggregator.py`: `value_counts` of
the per-row sound family. -/
def calculate_family_distribution (df : List Row) : List (String × Nat) :=
  value_counts (df.map (fun s => get_sound_family_opt s.top_label))

/-- `calculate_family_percentages` from `aggregator.py`: empty map on an
empty table, else rounded percentages. -/
def calculate_family_percentages (df : List Row) : List (String × ℚ) :=
  let distribution := calculate_family_distribution df
  let total := sumValsN distribution
  if total = 0 then []
  else distribution.map (fun p => (p.1, round1 ((p.2 : ℚ) / (total : ℚ) * 100)))

/-- One value of the `calculate_family_by_period` map. -/
structure FamStat where
  count : Nat
  percentage : ℚ
  avg_db : ℚ
  note : String
deriving DecidableEq, Repr

/-- `calculate_family_by_period` from `aggregator.py`: per-family count,
percentage, mean dB and grade over one period, sorted by percentage
descending (stable, over the ascending family order of the `groupby`).
The grade is derived from the un-rounded group mean. -/
def calculate_family_by_period (df : List Row) (period : String) :
    List (String × FamStat) :=
  let df_period := if period = "jour" then df.filter (fun s => !s.is_night)
                   else df.filter Row.is_night
  match df_period with
  | [] => []
  | _ =>
    let keys := (uniqFirst (df_period.map (fun s => get_sound_family_opt s.top_label))).insertionSort
      (fun a b : String => a ≤ b)
    let total := df_period.length
    let entries : List (String × FamStat) := keys.map (fun f =>
      let rows := df_period.filter (fun s => get_sound_family_opt s.top_label == f)
      let avg := pymean (rows.map Row.laeq)
      (f, { count := rows.length
            percentage := round1 ((rows.length : ℚ) / (total : ℚ) * 100)
            avg_db := round1 avg
            note := get_note_from_db avg }))
    entries.insertionSort (fun a b => b.2.percentage ≤ a.2.percentage)

/-- Maximum of a list of naturals, `0` when empty. -/
def pymaxN : List Nat → Nat
  | [] => 0
  | a :: t => t.foldl max a

/-- pandas `Series.mode()[0]` over the non-`None` labels of one hour group:
the lexicographically smallest among the most frequent values (`mode`
returns the sorted list of modes).  When every label of the group is `None`
the Python raises `KeyError` on the empty mode series; modelled as `none`
(no claim depends on this corner). -/
def pymode (l : List String) : Option String :=
  match uniqFirst l with
  | [] => none
  | d =>
    let m := pymaxN (d.map (fun x => l.count x))
    ((d.filter (fun x => l.count x = m)).insertionSort (fun a b : String => a ≤ b)).head?

/-- One row of the `calculate_hourly_stats` frame. -/
structure HourlyRow where
  hour : Nat
  db_mean : ℚ
  db_max : ℚ
  db_min : ℚ
  count : Nat
  dominant_sound : Option String
deriving DecidableEq, Repr

/-- `calculate_hourly_stats` from `aggregator.py`: `groupby("hour")` (keys
ascending, hours absent from the data omitted) with mean/max/min dB,
count and dominant label. -/
def calculate_hourly_stats (df : List Row) : List HourlyRow :=
  let hours := (uniqFirst (df.map Row.hour)).insertionSort (fun a b : Nat => a ≤ b)
  hours.map (fun h =>
    let grp := df.filter (fun s => s.hour == h)
    { hour := h
      db_mean := round1 (pymean (grp.map Row.laeq))
      db_max := round1 (pymax (grp.map Row.laeq))
      db_min := round1 (pymin (grp.map Row.laeq))
      count := grp.length
      dominant_sound := pymode (grp.filterMap Row.top_label) })

/-! ### `src/aggregator.py` — full bundle -/

/-- Ambient process state a Python function could observe besides its
arguments: the wall clock and the random-number state.  The aggregator
never consults either; threading the environment through the model makes
that observable as a theorem rather than a remark. -/
structure Env where
  wall_clock : Timestamp
  rand_seed : Nat
deriving DecidableEq, Repr

/-- The analysis bundle returned by `generate_full_analysis` (dict nesting
flattened into one record; `events` truncated to the first 50). -/
structure FullAnalysis where
  global_stats : GlobalStats
  day_night_jour : PeriodStats
  day_night_nuit : PeriodStats
  ratings_distribution : List (String × Nat)
  ratings_percentages : List (String × ℚ)
  top_5 : List SoundInfo
  top_5_jour : List SoundInfo
  top_5_nuit : List SoundInfo
  families : List (String × Nat)
  families_pct : List (String × ℚ)
  families_jour : List (String × FamStat)
  families_nuit : List (String × FamStat)
  classification : Classification
  hourly : List HourlyRow
  events : List SEvent
deriving DecidableEq, Repr

/-- `generate_full_analysis` from `aggregator.py`, with the ambient
environment made explicit (and, faithfully to the source, never read).
`none` on the empty table, where the Python crashes in
`calculate_global_stats`. -/
def generate_full_analysis (env : Env) (df : List Row) : Option FullAnalysis :=
  match calculate_global_stats df with
  | none => none
  | some g => some
      { global_stats := g
        day_night_jour := (calculate_day_night_stats df).1
        day_night_nuit := (calculate_day_night_stats df).2
        ratings_distribution := calculate_rating_distribution df
        ratings_percentages := calculate_rating_percentages df
        top_5 := calculate_top_sounds df 5
        top_5_jour := calculate_top_sounds_by_period df "jour" 5
        top_5_nuit := calculate_top_sounds_by_period df "nuit" 5
        families := calculate_family_distribution df
        families_pct := calculate_family_percentages df
        families_jour := calculate_family_by_period df "jour"
        families_nuit := calculate_family_by_period df "nuit"
        classification := classify_sounds_for_report df
        hourly := calculate_hourly_stats df
        events := (identify_sound_events df 3).take 50 }

/-! ### `src/data_loader.py` -/

/-- A parsed JSON value (the output of `json.load`), as handled by the
loader and the recommendation pipeline. -/
inductive J : Type where
  | null : J
  | bool (b : Bool) : J
  | num (q : ℚ) : J
  | str (s : String) : J
  | arr (elems : List J) : J
  | obj (fields : List (String × J)) : J
deriving Repr

/-- `REQUIRED_FIELDS` from `data_loader.py`. -/
def REQUIRED_FIELDS : List String :=
  ["box_id", "timestamp", "LAeq_segment_dB", "LAeq_rating",
   "top_5_labels", "top_5_probs"]

/-- `VALID_RATINGS` from `data_loader.py`. -/
def VALID_RATINGS : List String := ["A", "B", "C", "D", "E", "F", "G"]

/-- Python `isinstance(v, (int, float))`: a bool is an `int` subtype. -/
def numVal : J → Option ℚ
  | J.num q => some q
  | J.bool b => some (if b then 1 else 0)
  | _ => none

/-- Leap-year rule used by `datetime`. -/
def isLeapYear (y : Nat) : Bool :=
  (y % 4 == 0 && y % 100 != 0) || y % 400 == 0

/-- Days of a month, as validated by the `datetime` constructor. -/
def daysInMonth (y m : Nat) : Nat :=
  if m = 2 then (if isLeapYear y then 29 else 28)
  else if m = 4 ∨ m = 6 ∨ m = 9 ∨ m = 11 then 30
  else 31

/-- Split a character list at every occurrence of the separator (the
semantics of `str.split(sep)` for a one-character separator). -/
def splitOnChar (c : Char) : List Char → List (List Char)
  | [] => [[]]
  | x :: t =>
    let r := splitOnChar c t
    if x = c then [] :: r
    else
      match r with
      | h :: t2 => (x :: h) :: t2
      | [] => [[x]]

/-- Decimal value of a digit run of bounded width (`strptime` matches at
most `w` digits per numeric directive); `none` when empty, too wide or
non-numeric. -/
def digitsToNat (w : Nat) (l : List Char) : Option Nat :=
  if l ≠ [] ∧ l.length ≤ w ∧ l.all Char.isDigit then
    some (l.foldl (fun n c => 10 * n + (c.toNat - 48)) 0)
  else none

/-- `datetime.strptime(s, "%Y-%m-%d %H:%M:%S")`: exact shape
`date SPACE time`, dash-separated date, colon-separated time, decimal
fields of bounded width with calendar/range validation (as both `strptime`
and the `datetime` constructor enforce).  `none` models the `ValueError`. -/
def strptime (s : String) : Option Timestamp :=
  match splitOnChar ' ' s.toList with
  | [d, t] =>
    match splitOnChar '-' d, splitOnChar ':' t with
    | [ys, ms, ds], [hs, mis, ss] =>
      match digitsToNat 4 ys, digitsToNat 2 ms, digitsToNat 2 ds,
          digitsToNat 2 hs, digitsToNat 2 mis, digitsToNat 2 ss with
      | some y, some mo, some dd, some h, some mi, some sec =>
        if 1 ≤ y ∧ 1 ≤ mo ∧ mo ≤ 12 ∧ 1 ≤ dd ∧ dd ≤ daysInMonth y mo
            ∧ h ≤ 23 ∧ mi ≤ 59 ∧ sec ≤ 59
        then some ⟨y, mo, dd, h, mi, sec⟩ else none
      | _, _, _, _, _, _ => none
    | _, _ => none
  | _ => none

/-- The validation issues recorded by `DataLoader._validate_segment` /
`DataLoader.validate`, with the offending segment index (the Python stores
formatted message strings; the constructor identifies the message). -/
inductive VIssue : Type where
  | emptyFile
  | notDict (index : Nat)
  | missingField (index : Nat) (field : String)
  | badTimestamp (index : Nat)
  | dbNotNumber (index : Nat)
  | dbOutOfRange (index : Nat)
  | badRating (index : Nat)
  | labelsProbsNotLists (index : Nat)
  | labelsProbsLengthMismatch (index : Nat)
  | aberrantLmin (index : Nat)
deriving DecidableEq, Repr

/-- Exceptions that can escape the modelled loader / cost functions. -/
inductive PyErr : Type where
  | typeError
  | validationFailed (errors : List VIssue)
  | pandasParseError
deriving DecidableEq, Repr

/-- Timestamp-format check of `_validate_segment`: only `ValueError` from
`strptime` is caught (and recorded as a warning); a non-string raises an
uncaught `TypeError`. -/
def tsCheck (i : Nat) (fields : List (String × J)) : Except PyErr (List VIssue) :=
  match fields.lookup "timestamp" with
  | none => .ok []
  | some (J.str s) =>
      .ok (if (strptime s).isNone then [VIssue.badTimestamp i] else [])
  | some _ => .error PyErr.typeError

/-- dB check of `_validate_segment`: non-number is an error, out of
`[0, 150]` a warning. -/
def dbCheck (i : Nat) (fields : List (String × J)) : List VIssue × List VIssue :=
  match fields.lookup "LAeq_segment_dB" with
  | none => ([], [])
  | some v =>
    match numVal v with
    | none => ([VIssue.dbNotNumber i], [])
    | some q => ([], if q < 0 ∨ 150 < q then [VIssue.dbOutOfRange i] else [])

/-- Rating check of `_validate_segment`: any value other than the seven
letters (including non-strings) is a warning. -/
def ratingCheck (i : Nat) (fields : List (String × J)) : List VIssue :=
  match fields.lookup "LAeq_rating" with
  | none => []
  | some (J.str r) => if VALID_RATINGS.contains r then [] else [VIssue.badRating i]
  | some _ => [VIssue.badRating i]

/-- Labels/probs check of `_validate_segment`: run only when both fields are
present; non-lists are an error, a length mismatch a warning. -/
def listsCheck (i : Nat) (fields : List (String × J)) : List VIssue × List VIssue :=
  match fields.lookup "top_5_labels", fields.lookup "top_5_probs" with
  | some (J.arr ls), some (J.arr ps) =>
      ([], if ls.length ≠ ps.length then [VIssue.labelsProbsLengthMismatch i] else [])
  | some _, some _ => ([VIssue.labelsProbsNotLists i], [])
  | _, _ => ([], [])

/-- Aberrant-`Lmin_dB` check of `_validate_segment` (warning only). -/
def lminCheck (i : Nat) (fields : List (String × J)) : List VIssue :=
  match fields.lookup "Lmin_dB" with
  | none => []
  | some v =>
    match numVal v with
    | some q => if q < -100 then [VIssue.aberrantLmin i] else []
    | none => []

/-- `DataLoader._validate_segment`: issues of one segment in the order the
Python appends them (errors and warnings in separate lists, as the source
stores them). -/
def validate_segment (i : Nat) (seg : J) : Except PyErr (List VIssue × List VIssue) :=
  match seg with
  | J.obj fields => do
    let missing := REQUIRED_FIELDS.filterMap (fun f =>
      if (fields.lookup f).isNone then some (VIssue.missingField i f) else none)
    let tsW ← tsCheck i fields
    let (dbE, dbW) := dbCheck i fields
    let ratW := ratingCheck i fields
    let (lE, lW) := listsCheck i fields
    let lmW := lminCheck i fields
    .ok (missing ++ dbE ++ lE, tsW ++ dbW ++ ratW ++ lW ++ lmW)
  | _ => .ok ([VIssue.notDict i], [])

/-- `DataLoader.validate` over the parsed list: the collected errors, the
collected warnings, and the returned boolean (`True` iff no error; the
empty file is an error). -/
def validateModel (raw : List J) : Except PyErr (List VIssue × List VIssue × Bool) :=
  if raw.isEmpty then .ok ([VIssue.emptyFile], [], false)
  else do
    let rs ← raw.enum.mapM (fun p => validate_segment p.1 p.2)
    let errs := (rs.map Prod.fst).flatten
    let warns := (rs.map Prod.snd).flatten
    .ok (errs, warns, decide (errs = []))

/-- One row of the frame built by `DataLoader.to_dataframe`: the original
columns plus the derived ones. -/
structure LoadedRow where
  box_id : J
  timestamp : String
  laeq : J
  rating : J
  top_5_labels : List J
  top_5_probs : List J
  lmin : Option J
  timestamp_dt : Timestamp
  hour : Nat
  is_night : Bool
  top_label : Option J
  top_prob : J
deriving Repr

/-- Nulling of aberrant `Lmin_dB` values by `to_dataframe`:
`df.loc[df["Lmin_dB"] < -100, "Lmin_dB"] = None`.  A missing or null value
compares as NaN (false) and is kept; a value below −100 is nulled; a
non-numeric, non-null value makes the object-dtype comparison raise
`TypeError`. -/
def lminField : Option J → Except PyErr (Option J)
  | none => .ok none
  | some J.null => .ok (some J.null)
  | some v =>
    match numVal v with
    | some q => .ok (if q < -100 then none else some v)
    | none => .error PyErr.typeError

/-- Construction of one frame row by `DataLoader.to_dataframe`:
`pd.to_datetime(..., format=...)` raises on any unparseable timestamp
(modelled as `pandasParseError` — this is a `ValueError` nobody catches),
`top_label`/`top_prob` take the head of the lists (`None`/`0` when empty)
and an aberrant `Lmin_dB` is nulled.  This model covers exactly the inputs
that pass validation (string timestamp, list labels/probs); the guards
return `typeError` otherwise. -/
def buildRow (seg : J) : Except PyErr LoadedRow :=
  match seg with
  | J.obj fields =>
    match fields.lookup "timestamp" with
    | some (J.str s) =>
      match strptime s with
      | some t =>
        match fields.lookup "top_5_labels", fields.lookup "top_5_probs" with
        | some (J.arr ls), some (J.arr ps) =>
          match lminField (fields.lookup "Lmin_dB") with
          | .error e => .error e
          | .ok lm =>
            .ok { box_id := (fields.lookup "box_id").getD J.null
                  timestamp := s
                  laeq := (fields.lookup "LAeq_segment_dB").getD J.null
                  rating := (fields.lookup "LAeq_rating").getD J.null
                  top_5_labels := ls
                  top_5_probs := ps
                  lmin := lm
                  timestamp_dt := t
                  hour := t.hour
                  is_night := decide (22 ≤ t.hour) || decide (t.hour < 7)
                  top_label := ls.head?
                  top_prob := (ps.head?).getD (J.num 0) }
        | _, _ => .error PyErr.typeError
      | none => .error PyErr.pandasParseError
    | _ => .error PyErr.typeError
  | _ => .error PyErr.typeError

/-- `DataLoader.to_dataframe`.  (`pd.to_datetime` parses the whole column
before any derived column is built, so a single bad timestamp aborts the
whole call; `mapM` aborting at the first failing row yields the same
observable outcome: an exception and no frame.) -/
def to_dataframeModel (raw : List J) : Except PyErr (List LoadedRow) :=
  raw.mapM buildRow

/-- `DataLoader.load`: validate, raise `ValueError` listing the collected
errors when validation fails, else build the frame. -/
def loadModel (raw : List J) : Except PyErr (List LoadedRow) := do
  let (errs, _warns, valid) ← validateModel raw
  if valid then to_dataframeModel raw
  else .error (PyErr.validationFailed errs)

/-! ### `src/llm_client.py` — recommendation fallback and cost totals -/

/-- Fence stripping performed by `generate_recommendations` before
`json.loads`: strip, drop a leading ```` ``` ````-fence (taking the first
fenced chunk and removing a leading `json` tag), strip again. -/
def stripJsonFences (s : String) : String :=
  let t := s.trim
  let u := if t.startsWith "```" then
      let mid := (t.splitOn "```").getD 1 ""
      if mid.startsWith "json" then mid.drop 4 else mid
    else t
  u.trim

/-- `families.get(key, 0)` on the family-percentage dict. -/
def getD0 (families : List (String × ℚ)) (k : String) : ℚ :=
  (families.lookup k).getD 0

/-- One solution dict of `get_default_recommendations`. -/
def mkSol (nom description : String) (cmin cmax : ℚ)
    (impact difficulte : String) : J :=
  J.obj [("nom", J.str nom), ("description", J.str description),
         ("cout_min", J.num cmin), ("cout_max", J.num cmax),
         ("impact", J.str impact), ("difficulte", J.str difficulte)]

/-- `get_default_recommendations` from `llm_client.py`: the rule-based
fallback tree, driven by the overall grade and the family percentages.
Conditional strings are modelled as `J.str` of a conditional, matching the
Python conditional expressions. -/
def get_default_recommendations (note : String) (families : List (String × ℚ)) :
    List (String × J) :=
  let is_circulation := 30 < getD0 families "circulation"
  let is_voisinage := 20 < getD0 families "voisinage"
  let is_good := (["A", "B", "C"] : List String).contains note
  let is_severe := (["E", "F", "G"] : List String).contains note
  let fenetre_solutions : List J :=
    [mkSol "Joints d\x27étanchéité"
        "Remplacement des joints usés autour des fenêtres" 50 100
        "-5 à -10 dB" "facile",
     mkSol "Rideaux phoniques"
        "Installation de rideaux épais à propriétés acoustiques" 100 200
        "-3 à -5 dB" "facile"]
    ++ (if is_severe then
          [mkSol "Double ou triple vitrage"
              "Remplacement complet des fenêtres par du vitrage performant"
              3000 6000 "-15 à -25 dB" "difficile"]
        else [])
  let mur_solutions : List J :=
    [mkSol "Panneaux acoustiques décoratifs"
        "Panneaux muraux absorbants, faciles à installer" 100 300
        "-3 à -5 dB" "facile"]
    ++ (if is_severe then
          [mkSol "Doublage isolant"
              "Ajout d\x27une contre-cloison avec isolant acoustique"
              2000 5000 "-10 à -15 dB" "difficile"]
        else [])
  let plafond_solutions : List J :=
    if is_voisinage || is_severe then
      [mkSol "Faux plafond acoustique"
          "Installation d\x27un plafond suspendu avec isolant" 3000 8000
          "-15 à -25 dB" "difficile"]
    else []
  [("fenetre", J.obj
      [("priorite", J.str (if is_circulation then "haute"
          else if !is_good then "moyenne" else "basse")),
       ("points_positifs", J.str (if is_good then
          "Vos fenêtres offrent déjà une isolation correcte pour ce type de logement."
        else
          "La structure des fenêtres permet d\x27envisager des améliorations simples et efficaces.")),
       ("probleme", J.str (if is_good then
          "Légère transmission du bruit extérieur"
        else if !is_severe then
          "Transmission du bruit extérieur à améliorer"
        else
          "Transmission importante du bruit extérieur nécessitant une intervention")),
       ("solutions", J.arr fenetre_solutions)]),
   ("mur", J.obj
      [("priorite", J.str (if is_voisinage then "moyenne" else "basse")),
       ("points_positifs", J.str (if is_good then
          "Les murs présentent une masse suffisante pour bloquer la majorité des bruits."
        else
          "La configuration des murs permet d\x27ajouter des solutions d\x27absorption efficaces.")),
       ("probleme", J.str (if is_voisinage then
          "Transmission latérale modérée"
        else
          "Isolation murale standard, améliorable si besoin")),
       ("solutions", J.arr mur_solutions)]),
   ("plafond", J.obj
      [("priorite", J.str (if is_voisinage then "haute" else "basse")),
       ("points_positifs", J.str (if !is_voisinage then
          "Le plafond ne présente pas de transmission excessive de bruits d\x27impact."
        else
          "La hauteur sous plafond permet d\x27envisager une solution d\x27isolation.")),
       ("probleme", J.str (if is_voisinage then
          "Bruits d\x27impact du dessus à traiter"
        else
          "Aucun problème majeur détecté")),
       ("solutions", J.arr (if plafond_solutions.isEmpty then
          [mkSol "Aucune intervention nécessaire"
              "Le plafond offre une isolation satisfaisante" 0 0 "-" "-"]
        else plafond_solutions))]),
   ("sol", J.obj
      [("priorite", J.str "basse"),
       ("points_positifs", J.str
          "Le revêtement de sol actuel contribue à l\x27absorption des bruits intérieurs."),
       ("probleme", J.str "Transmission possible vers le dessous"),
       ("solutions", J.arr
          [mkSol "Tapis épais"
              "Ajout de tapis ou moquette pour absorber les bruits d\x27impact"
              100 300 "-3 à -5 dB" "facile",
           mkSol "Sous-couche acoustique"
              "Installation sous le revêtement existant" 500 1500
              "-10 à -15 dB" "moyen"])]),
   ("porte", J.obj
      [("priorite", J.str "moyenne"),
       ("points_positifs", J.str
          "Les portes assurent une séparation correcte entre les pièces."),
       ("probleme", J.str "Passage du son par les interstices"),
       ("solutions", J.arr
          [mkSol "Bas de porte"
              "Installation d\x27un joint bas de porte" 20 50
              "-3 à -5 dB" "facile",
           mkSol "Porte acoustique"
              "Remplacement par une porte à isolation renforcée" 500 1500
              "-10 à -20 dB" "moyen"])]),
   ("aeration", J.obj
      [("priorite", J.str "basse"),
       ("points_positifs", J.str
          "Le système de ventilation fonctionne correctement."),
       ("probleme", J.str
          "Les entrées d\x27air peuvent laisser passer le bruit extérieur"),
       ("solutions", J.arr
          [mkSol "Entrées d\x27air acoustiques"
              "Remplacement par des grilles à chicanes acoustiques" 50 150
              "-5 à -10 dB" "moyen"])])]

/-- `generate_recommendations` from `llm_client.py`, at the external-service
boundary: the blocking `call_groq` result is the opaque `response` value
(`None` on any failure; `if result:` also treats an empty string as
falsy and goes straight to the fallback), `json.loads` is the opaque
`parse` function
(`none` models `JSONDecodeError`), and the prompt construction — which only
feeds the external call — is elided.  The grade and family percentages are
the values the source extracts from the analysis bundle. -/
def generate_recommendations_model (parse : String → Option J)
    (response : Option String) (note : String)
    (families : List (String × ℚ)) : J :=
  match response with
  | some r =>
    if r = "" then J.obj (get_default_recommendations note families)
    else
      match parse (stripJsonFences r) with
      | some j => j
      | none => J.obj (get_default_recommendations note families)
  | none => J.obj (get_default_recommendations note families)

/-- Python truthiness of a JSON value. -/
def pyTruthy : J → Bool
  | J.null => false
  | J.bool b => b
  | J.num q => decide (q ≠ 0)
  | J.str s => !(s == "")
  | J.arr l => !l.isEmpty
  | J.obj l => !l.isEmpty

/-- Python `v or 0`. -/
def orZero (v : J) : J := if pyTruthy v then v else J.num 0

/-- Python `total += (sol.get(key, 0) or 0)`: adding a non-number (other
than a bool, an `int` subtype) raises `TypeError`. -/
def addCost (acc : ℚ) (v : J) : Except PyErr ℚ :=
  match orZero v with
  | J.num q => .ok (acc + q)
  | J.bool _ => .ok (acc + 1)
  | _ => .error PyErr.typeError

/-- Python `for sol in solutions`: lists iterate their elements, strings
their characters, dicts their keys; other values raise `TypeError`. -/
def solIter : J → Except PyErr (List J)
  | J.arr l => .ok l
  | J.str s => .ok (s.toList.map (fun c => J.str c.toString))
  | J.obj l => .ok (l.map (fun p => J.str p.1))
  | _ => .error PyErr.typeError

/-- Per-solution step of `calculate_total_costs`: non-dict entries are
skipped by the `isinstance` guard. -/
def solStep (acc : ℚ × ℚ) (sol : J) : Except PyErr (ℚ × ℚ) :=
  match sol with
  | J.obj so => do
    let m ← addCost acc.1 ((so.lookup "cout_min").getD (J.num 0))
    let mx ← addCost acc.2 ((so.lookup "cout_max").getD (J.num 0))
    .ok (m, mx)
  | _ => .ok acc

/-- Per-category step of `calculate_total_costs`: non-dict category values
are skipped; `solutions` defaults to the empty list. -/
def catCosts (acc : ℚ × ℚ) (data : J) : Except PyErr (ℚ × ℚ) :=
  match data with
  | J.obj o => do
    let sols ← solIter ((o.lookup "solutions").getD (J.arr []))
    sols.foldlM solStep acc
  | _ => .ok acc

/-- `calculate_total_costs` from `llm_client.py`: running min/max totals
over every solution of every category, in dict order. -/
def calculate_total_costs (recommendations : List (String × J)) :
    Except PyErr (ℚ × ℚ) :=
  recommendations.foldlM (fun acc p => catCosts acc p.2) (0, 0)

/-! ### Concrete inputs used by counterexamples and witnesses -/

/-- A table row with the given rating (other columns irrelevant to the
grade-distribution functions). -/
def rRow (r : String) : Row :=
  { timestamp := "", timestamp_dt := ⟨2025, 1, 1, 12, 0, 0⟩, laeq := 50,
    rating := r, hour := 12, top_label := none, top_prob := 0 }

/-- Six segments rated A,B,C,D,E,F once each: every letter contributes
100/6 % which rounds up to 16.7, so the seven rounded percentages sum to
100.2. -/
def df6 : List Row :=
  [rRow "A", rRow "B", rRow "C", rRow "D", rRow "E", rRow "F"]

/-- A table row with the given primary label and raw timestamp string. -/
def vRow (l : String) (t : String) : Row :=
  { timestamp := t, timestamp_dt := ⟨2025, 1, 1, 12, 0, 0⟩, laeq := 50,
    rating := "C", hour := 12, top_label := some l, top_prob := 1/10 }

/-- The spec scenario: 5 consecutive "Vehicle" segments then 2 "Music". -/
def exScenario : List Row :=
  [vRow "Vehicle" "t1", vRow "Vehicle" "t2", vRow "Vehicle" "t3",
   vRow "Vehicle" "t4", vRow "Vehicle" "t5", vRow "Music" "t6", vRow "Music" "t7"]

/-- Two 3-segment "Vehicle" runs separated by a single dropped "Music"
segment: the output holds two consecutive events with the same label. -/
def exCtr : List Row :=
  [vRow "Vehicle" "t1", vRow "Vehicle" "t2", vRow "Vehicle" "t3",
   vRow "Music" "t4",
   vRow "Vehicle" "t5", vRow "Vehicle" "t6", vRow "Vehicle" "t7"]

/-- Three segments all labelled "Vehicle": a problematic sound at 100 %. -/
def df3V : List Row := [vRow "Vehicle" "t1", vRow "Vehicle" "t2", vRow "Vehicle" "t3"]

/-- A row whose `top_5_labels` was empty: the loader sets `top_label` to
`None`. -/
def nRow (t : String) : Row :=
  { timestamp := t, timestamp_dt := ⟨2025, 1, 1, 12, 0, 0⟩, laeq := 50,
    rating := "C", hour := 12, top_label := none, top_prob := 0 }

/-- A 4-segment run of `None`-labelled rows (longer than the default
threshold 3). -/
def exNoneRun : List Row := [nRow "n1", nRow "n2", nRow "n3", nRow "n4"]

/-- One parsed segment with every required field present and well-typed but
an unparseable timestamp — the claimed non-fatal-warning case. -/
def exBadTs : List J :=
  [J.obj [("box_id", J.str "pi3"), ("timestamp", J.str "not-a-date"),
          ("LAeq_segment_dB", J.num 45), ("LAeq_rating", J.str "C"),
          ("top_5_labels", J.arr [J.str "Vehicle"]),
          ("top_5_probs", J.arr [J.num (1/2)])]]

/-- The spec cost scenario: one category with solutions
`[{min:50, max:100}, {min:0, max:0}]`, another category with none. -/
def exC7 : List (String × J) :=
  [("fenetre", J.obj [("priorite", J.str "basse"),
      ("solutions", J.arr
        [J.obj [("cout_min", J.num 50), ("cout_max", J.num 100)],
         J.obj [("cout_min", J.num 0), ("cout_max", J.num 0)]])]),
   ("mur", J.obj [("priorite", J.str "basse")])]

/-! ### Helper lemmas — rounding -/

/-- Rounding to one decimal moves a rational by at most 1/20. -/
theorem round1_err (x : ℚ) : |round1 x - x| ≤ 1 / 20 := by
  have h := abs_sub_round (10 * x)
  rw [abs_sub_comm] at h
  have e : round1 x - x = (((round (10 * x) : ℤ) : ℚ) - 10 * x) / 10 := by
    unfold round1; ring
  rw [e, abs_div]
  have h10 : |(10 : ℚ)| = 10 := by norm_num
  rw [h10]
  linarith

/-! ### Helper lemmas — the grade scale -/

/-- Band index of a dB value on the DPS scale. -/
def bandIdx (db : ℚ) : Nat :=
  if db ≤ 20 then 0 else if db ≤ 30 then 1 else if db ≤ 45 then 2
  else if db ≤ 60 then 3 else if db ≤ 80 then 4 else if db ≤ 100 then 5 else 6

/-- Letter of a band index. -/
def noteOfIdx : Nat → String
  | 0 => "A" | 1 => "B" | 2 => "C" | 3 => "D" | 4 => "E" | 5 => "F" | _ => "G"

/-- Rank of a grade letter in the order A < B < ... < G (7 for anything
else, which `get_note_from_db` never returns). -/
def note_rank (n : String) : Nat :=
  if n = "A" then 0 else if n = "B" then 1 else if n = "C" then 2
  else if n = "D" then 3 else if n = "E" then 4 else if n = "F" then 5
  else if n = "G" then 6 else 7

theorem get_note_eq_band (db : ℚ) : get_note_from_db db = noteOfIdx (bandIdx db) := by
  unfold get_note_from_db DPS_SCALE bandIdx
  by_cases h1 : db ≤ 20
  · simp [List.find?, h1, noteOfIdx]
  by_cases h2 : db ≤ 30
  · simp [List.find?, h1, h2, noteOfIdx]
  by_cases h3 : db ≤ 45
  · simp [List.find?, h1, h2, h3, noteOfIdx]
  by_cases h4 : db ≤ 60
  · simp [List.find?, h1, h2, h3, h4, noteOfIdx]
  by_cases h5 : db ≤ 80
  · simp [List.find?, h1, h2, h3, h4, h5, noteOfIdx]
  by_cases h6 : db ≤ 100
  · simp [List.find?, h1, h2, h3, h4, h5, h6, noteOfIdx]
  by_cases h7 : db ≤ 120
  · simp [List.find?, h1, h2, h3, h4, h5, h6, h7, noteOfIdx]
  · simp [List.find?, h1, h2, h3, h4, h5, h6, h7, noteOfIdx]

theorem bandIdx_le_six (db : ℚ) : bandIdx db ≤ 6 := by
  unfold bandIdx; split_ifs <;> omega

theorem note_rank_noteOfIdx {i : Nat} (h : i ≤ 6) : note_rank (noteOfIdx i) = i := by
  interval_cases i <;> rfl

theorem bandIdx_mono {v1 v2 : ℚ} (h : v1 ≤ v2) : bandIdx v1 ≤ bandIdx v2 := by
  unfold bandIdx
  split_ifs <;> first | omega | linarith

/-- C3: `get_note_from_db` is total and monotone — larger dB values never
get a strictly better letter (under the order A < B < ... < G), and any
value above the top band bound of 120 yields "G" rather than an error. -/
theorem c3_grade_monotone_total :
    (∀ v1 v2 : ℚ, v1 < v2 →
        note_rank (get_note_from_db v1) ≤ note_rank (get_note_from_db v2))
    ∧ (∀ v : ℚ, 120 < v → get_note_from_db v = "G") := by
  constructor
  · intro v1 v2 h
    rw [get_note_eq_band, get_note_eq_band,
        note_rank_noteOfIdx (bandIdx_le_six v1),
        note_rank_noteOfIdx (bandIdx_le_six v2)]
    exact bandIdx_mono h.le
  · intro v h
    rw [get_note_eq_band]
    have h6 : bandIdx v = 6 := by
      unfold bandIdx; split_ifs <;> first | rfl | linarith
    rw [h6]
    rfl

/-- Witness for C3 at concrete inputs. -/
theorem c3_witness :
    note_rank (get_note_from_db 10) ≤ note_rank (get_note_from_db 50)
    ∧ get_note_from_db 121 = "G" :=
  ⟨c3_grade_monotone_total.1 10 50 (by norm_num),
   c3_grade_monotone_total.2 121 (by norm_num)⟩

/-- C8: the rating distribution always carries exactly the seven keys A–G
in order; a letter absent from the data gets count 0; and on a table whose
seven-letter total is zero the percentages are all 0.0 instead of a
division-by-zero failure. -/
theorem c8_rating_distribution :
    (∀ df : List Row, (calculate_rating_distribution df).map Prod.fst = all_ratings)
    ∧ (∀ df : List Row, ∀ r : String, r ∈ all_ratings →
        df.countP (fun s => s.rating == r) = 0 →
        (calculate_rating_distribution df).lookup r = some 0)
    ∧ (∀ df : List Row, ratingTotal df = 0 →
        calculate_rating_percentages df = all_ratings.map (fun r => (r, (0 : ℚ)))) := by
  refine ⟨?_, ?_, ?_⟩
  · intro df
    simp [calculate_rating_distribution, all_ratings]
  · intro df r hr hc
    fin_cases hr <;>
      simp [calculate_rating_distribution, all_ratings, List.lookup, hc]
  · intro df h
    unfold ratingTotal at h
    simp only [calculate_rating_percentages]
    rw [if_pos h]
    simp [calculate_rating_distribution, all_ratings]

/-- Witness for C8 at concrete inputs (including a non-empty table with an
unknown rating letter, whose seven-letter total is zero). -/
theorem c8_witness :
    (calculate_rating_distribution [rRow "A"]).map Prod.fst = all_ratings
    ∧ (calculate_rating_distribution [rRow "A"]).lookup "B" = some 0
    ∧ calculate_rating_percentages [rRow "Z"]
        = all_ratings.map (fun r => (r, (0 : ℚ))) :=
  ⟨c8_rating_distribution.1 [rRow "A"],
   c8_rating_distribution.2.1 [rRow "A"] "B" (by decide) (by decide),
   c8_rating_distribution.2.2 [rRow "Z"] (by decide)⟩

/-- C2 counterexample: on `df6` the seven rounded percentages are 16.7 for
each of A–F and 0 for G, summing to 100.2 — off from 100 by 0.2, outside
the claimed 0.1 tolerance. -/
theorem c2_counterexample :
    sumValsQ (calculate_rating_percentages df6) = 1002 / 10
    ∧ ¬ |sumValsQ (calculate_rating_percentages df6) - 100| ≤ 1 / 10 := by
  have hdist : calculate_rating_distribution df6
      = [("A", 1), ("B", 1), ("C", 1), ("D", 1), ("E", 1), ("F", 1), ("G", 0)] := by
    decide
  have h : sumValsQ (calculate_rating_percentages df6) = 1002 / 10 := by
    simp only [calculate_rating_percentages, hdist]
    rw [if_neg (by norm_num [sumValsN])]
    simp only [sumValsN, sumValsQ, List.map_cons, List.map_nil, List.sum_cons,
      List.sum_nil, round1, round_eq]
    norm_num
  refine ⟨h, ?_⟩
  rw [h, show ((1002 : ℚ) / 10 - 100) = 1 / 5 by norm_num,
    abs_of_pos (by norm_num : (0 : ℚ) < 1 / 5)]
  norm_num

/-- Seven-term version of the rounding bound used by the amended C2. -/
theorem seven_round_sum {a b c d e f g T : ℚ} (hT : T ≠ 0)
    (hsum : a + b + c + d + e + f + g = T) :
    |round1 (a / T * 100) + (round1 (b / T * 100) + (round1 (c / T * 100)
      + (round1 (d / T * 100) + (round1 (e / T * 100) + (round1 (f / T * 100)
      + (round1 (g / T * 100) + 0)))))) - 100| ≤ 7 / 20 := by
  have key : a / T * 100 + b / T * 100 + c / T * 100 + d / T * 100
      + e / T * 100 + f / T * 100 + g / T * 100 = 100 := by
    field_simp
    linarith
  have h1 := abs_le.mp (round1_err (a / T * 100))
  have h2 := abs_le.mp (round1_err (b / T * 100))
  have h3 := abs_le.mp (round1_err (c / T * 100))
  have h4 := abs_le.mp (round1_err (d / T * 100))
  have h5 := abs_le.mp (round1_err (e / T * 100))
  have h6 := abs_le.mp (round1_err (f / T * 100))
  have h7 := abs_le.mp (round1_err (g / T * 100))
  rw [abs_le]
  constructor <;>
    linarith [h1.1, h1.2, h2.1, h2.2, h3.1, h3.2, h4.1, h4.2, h5.1, h5.2,
      h6.1, h6.2, h7.1, h7.2]

/-- C2 (amended): for any table with a non-zero seven-letter total, the
rounded grade percentages sum to 100 within 0.35 (= 7 × 0.05, one half-ulp
of the one-decimal rounding per letter); the claimed tolerance 0.1 is
refuted by `c2_counterexample`. -/
theorem c2_percentage_closure :
    ∀ df : List Row, ratingTotal df ≠ 0 →
      |sumValsQ (calculate_rating_percentages df) - 100| ≤ 7 / 20 := by
  intro df h
  unfold ratingTotal at h
  simp only [calculate_rating_percentages]
  rw [if_neg h]
  have hT : ((sumValsN (calculate_rating_distribution df)) : ℚ) ≠ 0 := by
    exact_mod_cast h
  have hsum :
      ((df.countP (fun s => s.rating == "A") : ℚ))
        + (df.countP (fun s => s.rating == "B") : ℚ)
        + (df.countP (fun s => s.rating == "C") : ℚ)
        + (df.countP (fun s => s.rating == "D") : ℚ)
        + (df.countP (fun s => s.rating == "E") : ℚ)
        + (df.countP (fun s => s.rating == "F") : ℚ)
        + (df.countP (fun s => s.rating == "G") : ℚ)
      = ((sumValsN (calculate_rating_distribution df)) : ℚ) := by
    simp [sumValsN, calculate_rating_distribution, all_ratings]
    ring
  simpa [sumValsQ, calculate_rating_distribution, all_ratings]
    using seven_round_sum hT hsum

/-- Witness for the amended C2 at a concrete one-row table. -/
theorem c2_witness :
    |sumValsQ (calculate_rating_percentages [rRow "A"]) - 100| ≤ 7 / 20 :=
  c2_percentage_closure [rRow "A"] (by decide)

/-- C9: the aggregator is deterministic — `generate_full_analysis` is a pure
function of the table alone, so two calls on the same unmutated table yield
identical bundles whatever the ambient wall clock or random state; in the
pure embedding the input cannot be mutated. -/
theorem c9_deterministic :
    ∀ (e1 e2 : Env) (df : List Row),
      generate_full_analysis e1 df = generate_full_analysis e2 df := by
  intro e1 e2 df
  rfl

/-- C5: on a file whose single segment carries every required field,
well-typed, but an unparseable timestamp, `validate` reports success with
only a non-fatal warning (no errors) — yet `load` raises out of
`pd.to_datetime` and returns no table, contradicting the claim that only
the fatal conditions reject a file.  The claim matches the loader design
(and `validate` itself); the crash in `to_dataframe` is the code bug. -/
theorem c5_load_eval :
    validateModel exBadTs = .ok ([], [VIssue.badTimestamp 0], true)
    ∧ loadModel exBadTs = .error PyErr.pandasParseError := by
  constructor
  · rfl
  · rfl

/-- Schema guard used to state C6: the category value is a dict whose
`priorite` entry is a (non-null) string. -/
def hasPriorite : J → Bool
  | J.obj fields =>
    match fields.lookup "priorite" with
    | some (J.str _) => true
    | _ => false
  | _ => false

/-- C6: whenever the external response is absent, or present but failing to
parse as JSON, `generate_recommendations` returns exactly
`get_default_recommendations(note, families)`; and for every grade and
family-percentage map the default carries exactly the six fixed categories,
each with a non-null `priorite`. -/
theorem c6_fallback :
    (∀ (parse : String → Option J) (note : String)
        (families : List (String × ℚ)),
      generate_recommendations_model parse none note families
        = J.obj (get_default_recommendations note families))
    ∧ (∀ (parse : String → Option J) (r : String) (note : String)
          (families : List (String × ℚ)),
        parse (stripJsonFences r) = none →
        generate_recommendations_model parse (some r) note families
          = J.obj (get_default_recommendations note families))
    ∧ (∀ (note : String) (families : List (String × ℚ)),
        (get_default_recommendations note families).map Prod.fst
          = ["fenetre", "mur", "plafond", "sol", "porte", "aeration"]
        ∧ ((get_default_recommendations note families).all
            (fun p => hasPriorite p.2)) = true) := by
  refine ⟨fun _ _ _ => rfl, ?_, fun note families => ⟨rfl, rfl⟩⟩
  intro parse r note families h
  by_cases hr : r = ""
  · simp only [generate_recommendations_model]
    rw [if_pos hr]
  · simp only [generate_recommendations_model]
    rw [if_neg hr, h]

/-- Witness for C6: a response that fails to parse falls back to the
default tree, which carries the six categories. -/
theorem c6_witness :
    generate_recommendations_model (fun _ => none) (some "not json") "D" []
      = J.obj (get_default_recommendations "D" [])
    ∧ (get_default_recommendations "D" []).map Prod.fst
      = ["fenetre", "mur", "plafond", "sol", "porte", "aeration"] :=
  ⟨c6_fallback.2.1 (fun _ => none) "not json" "D" [] rfl,
   (c6_fallback.2.2 "D" []).1⟩

/-! ### Helper lemmas — cost aggregation (C7) -/

/-- Well-formed cost entry of a solution dict: absent, null or numeric. -/
def wfCostField (so : List (String × J)) (f : String) : Bool :=
  match so.lookup f with
  | none => true
  | some J.null => true
  | some (J.num _) => true
  | some _ => false

/-- Well-formed solution: a dict has well-formed `cout_min`/`cout_max`
(non-dict solutions are skipped by the source and impose nothing). -/
def wfSol : J → Bool
  | J.obj so => wfCostField so "cout_min" && wfCostField so "cout_max"
  | _ => true

/-- Well-formed category value: a dict carries a `solutions` list of
well-formed solutions (non-dict categories are skipped). -/
def wfCat : J → Bool
  | J.obj o =>
    match (o.lookup "solutions").getD (J.arr []) with
    | J.arr l => l.all wfSol
    | _ => false
  | _ => true

/-- Well-formed recommendation tree: every category value well-formed. -/
def wfRecTree (recs : List (String × J)) : Bool :=
  recs.all (fun p => wfCat p.2)

/-- Modelled from the claim text: the cost a solution contributes, with a
missing or null entry read as zero. -/
def claimedCost (f : String) : J → ℚ
  | J.obj so =>
    match so.lookup f with
    | some (J.num q) => q
    | _ => 0
  | _ => 0

/-- Modelled from the claim text: total of one category. -/
def claimedCatTotal (f : String) : J → ℚ
  | J.obj o =>
    match (o.lookup "solutions").getD (J.arr []) with
    | J.arr l => (l.map (claimedCost f)).sum
    | _ => 0
  | _ => 0

/-- Modelled from the claim text: total over the whole tree. -/
def claimedTotal (f : String) (recs : List (String × J)) : ℚ :=
  (recs.map (fun p => claimedCatTotal f p.2)).sum

/-- Reduction of an `Except` bind on a success value. -/
theorem except_ok_bind {ε : Type _} {α β : Type _} (a : α) (f : α → Except ε β) :
    ((Except.ok a : Except ε α) >>= f) = f a := rfl

theorem addCost_wf {so : List (String × J)} {f : String}
    (h : wfCostField so f = true) (acc : ℚ) :
    addCost acc ((so.lookup f).getD (J.num 0))
      = .ok (acc + claimedCost f (J.obj so)) := by
  rw [wfCostField] at h
  cases hl : so.lookup f with
  | none => simp [addCost, orZero, pyTruthy, claimedCost, hl]
  | some v =>
    rw [hl] at h
    cases v with
    | null => simp [addCost, orZero, pyTruthy, claimedCost, hl]
    | num q =>
      by_cases hq : q = 0
      · subst hq; simp [addCost, orZero, pyTruthy, claimedCost, hl]
      · simp [addCost, orZero, pyTruthy, claimedCost, hl, hq]
    | bool b => simp at h
    | str s₁ => simp at h
    | arr l => simp at h
    | obj l => simp at h

theorem solStep_wf {sol : J} (h : wfSol sol = true) (acc : ℚ × ℚ) :
    solStep acc sol
      = .ok (acc.1 + claimedCost "cout_min" sol,
             acc.2 + claimedCost "cout_max" sol) := by
  cases sol with
  | obj so =>
    rw [wfSol, Bool.and_eq_true] at h
    simp only [solStep]
    rw [addCost_wf h.1, except_ok_bind, addCost_wf h.2, except_ok_bind]
  | null => simp [solStep, claimedCost]
  | bool b => simp [solStep, claimedCost]
  | num q => simp [solStep, claimedCost]
  | str s₁ => simp [solStep, claimedCost]
  | arr l => simp [solStep, claimedCost]

theorem foldlM_sols {l : List J} (h : l.all wfSol = true) :
    ∀ acc : ℚ × ℚ,
      l.foldlM solStep acc
        = .ok (acc.1 + (l.map (claimedCost "cout_min")).sum,
               acc.2 + (l.map (claimedCost "cout_max")).sum) := by
  induction l with
  | nil => intro acc; simp; rfl
  | cons s t ih =>
    intro acc
    rw [List.all_cons, Bool.and_eq_true] at h
    rw [List.foldlM_cons, solStep_wf h.1, except_ok_bind, ih h.2]
    simp [add_assoc]

theorem catCosts_wf {d : J} (h : wfCat d = true) (acc : ℚ × ℚ) :
    catCosts acc d
      = .ok (acc.1 + claimedCatTotal "cout_min" d,
             acc.2 + claimedCatTotal "cout_max" d) := by
  cases d with
  | obj o =>
    rw [wfCat] at h
    simp only [catCosts, claimedCatTotal]
    cases hs : (o.lookup "solutions").getD (J.arr []) with
    | arr l =>
      rw [hs] at h
      simp only [solIter, except_ok_bind]
      exact foldlM_sols h acc
    | null => rw [hs] at h; simp at h
    | bool b => rw [hs] at h; simp at h
    | num q => rw [hs] at h; simp at h
    | str s₁ => rw [hs] at h; simp at h
    | obj l => rw [hs] at h; simp at h
  | null => simp [catCosts, claimedCatTotal]
  | bool b => simp [catCosts, claimedCatTotal]
  | num q => simp [catCosts, claimedCatTotal]
  | str s₁ => simp [catCosts, claimedCatTotal]
  | arr l => simp [catCosts, claimedCatTotal]

/-- C7: on every well-formed recommendation tree (the shape both the schema
and the fallback produce), `calculate_total_costs` succeeds and returns
exactly the sums of `cout_min`/`cout_max` over every solution of every
category, with missing or null costs read as zero; and on the spec scenario
(one category with solutions `[{min 50, max 100}, {min 0, max 0}]` and one
with none) it returns `{min 50, max 100}`. -/
theorem c7_total_costs :
    (∀ recs : List (String × J), wfRecTree recs = true →
        calculate_total_costs recs
          = .ok (claimedTotal "cout_min" recs, claimedTotal "cout_max" recs))
    ∧ calculate_total_costs exC7 = .ok (50, 100) := by
  have hgen : ∀ recs : List (String × J), wfRecTree recs = true →
      calculate_total_costs recs
        = .ok (claimedTotal "cout_min" recs, claimedTotal "cout_max" recs) := by
    intro recs h
    suffices h2 : ∀ acc : ℚ × ℚ,
        recs.foldlM (fun acc p => catCosts acc p.2) acc
          = .ok (acc.1 + claimedTotal "cout_min" recs,
                 acc.2 + claimedTotal "cout_max" recs) by
      have h0 := h2 (0, 0)
      simpa [calculate_total_costs] using h0
    induction recs with
    | nil => intro acc; simp [claimedTotal]; rfl
    | cons c t ih =>
      intro acc
      rw [wfRecTree, List.all_cons, Bool.and_eq_true] at h
      rw [List.foldlM_cons, catCosts_wf h.1, except_ok_bind, ih h.2]
      simp [claimedTotal, add_assoc]
  refine ⟨hgen, ?_⟩
  rw [hgen exC7 rfl]
  have hmin : claimedTotal "cout_min" exC7 = 50 := by
    simp [claimedTotal, claimedCatTotal, claimedCost, exC7, List.lookup]
  have hmax : claimedTotal "cout_max" exC7 = 100 := by
    simp [claimedTotal, claimedCatTotal, claimedCost, exC7, List.lookup]
  rw [hmin, hmax]

/-- Witness for C7: the spec scenario tree is well-formed and the theorem
applies to it. -/
theorem c7_witness :
    wfRecTree exC7 = true
    ∧ calculate_total_costs exC7
      = .ok (claimedTotal "cout_min" exC7, claimedTotal "cout_max" exC7) :=
  ⟨rfl, c7_total_costs.1 exC7 rfl⟩

/-! ### Helper lemmas — event detection -/

/-- Every event flushed by the scan satisfies any predicate that holds of
all guarded flushes: the fold preserves `P` over the accumulated event
list. -/
theorem eventStep_all {mc : Nat} {P : SEvent → Bool}
    (hP : ∀ cl cs, truthyLabel cl = true → mc ≤ cs.length →
      P (mkEvent cl cs) = true) :
    ∀ (df : List Row) (st : Option String × List Row × List SEvent),
      st.2.2.all P = true → ((df.foldl (eventStep mc) st).2.2.all P) = true := by
  intro df
  induction df with
  | nil => intro st h; simpa using h
  | cons row t ih =>
    intro st h
    rw [List.foldl_cons]
    apply ih
    rcases st with ⟨cl, cs, evs⟩
    simp only [eventStep]
    split_ifs with h1 h2
    · exact h
    · rw [Bool.and_eq_true] at h2
      rw [List.all_append, Bool.and_eq_true]
      refine ⟨h, ?_⟩
      simp only [List.all_cons, List.all_nil, Bool.and_true]
      exact hP cl cs h2.1 (of_decide_eq_true h2.2)
    · exact h

/-- The final flush of `identify_sound_events` obeys the same guard, so any
per-flush predicate holds of the whole output. -/
theorem identify_all {mc : Nat} {P : SEvent → Bool}
    (hP : ∀ cl cs, truthyLabel cl = true → mc ≤ cs.length →
      P (mkEvent cl cs) = true) (df : List Row) :
    (identify_sound_events df mc).all P = true := by
  simp only [identify_sound_events]
  split_ifs with h1
  · rw [Bool.and_eq_true] at h1
    rw [List.all_append, Bool.and_eq_true]
    refine ⟨eventStep_all hP df _ rfl, ?_⟩
    simp only [List.all_cons, List.all_nil, Bool.and_true]
    exact hP _ _ h1.1 (of_decide_eq_true h1.2)
  · exact eventStep_all hP df _ rfl

/-- C1 (amended): every event returned by `identify_sound_events` spans at
least `min_consecutive` segments, and on the spec scenario (5 "Vehicle"
segments then 2 "Music", threshold 3) the result is exactly one event, for
"Vehicle", of 5 segments — and none for "Music".  The original claim's
"no two consecutive output events share a label" is refuted by
`c1_counterexample`: a dropped short run between two long runs of the same
label yields two consecutive events with equal labels. -/
theorem c1_events :
    (∀ (df : List Row) (mc : Nat),
        ((identify_sound_events df mc).all
          (fun e => decide (mc ≤ e.duration_segments))) = true)
    ∧ (identify_sound_events exScenario 3).map
        (fun e => (e.label, e.duration_segments)) = [(some "Vehicle", 5)] := by
  constructor
  · intro df mc
    refine identify_all ?_ df
    intro cl cs _ hlen
    simpa [mkEvent] using hlen
  · decide

/-- C1 counterexample: on two 3-long "Vehicle" runs separated by one
dropped "Music" segment, the output is two consecutive events both labelled
"Vehicle", refuting the claimed alternation of labels. -/
theorem c1_counterexample :
    (identify_sound_events exCtr 3).map (fun e => e.label)
      = [some "Vehicle", some "Vehicle"]
    ∧ ¬ List.Chain' (fun a b : SEvent => a.label ≠ b.label)
        (identify_sound_events exCtr 3) := by
  have hmap : (identify_sound_events exCtr 3).map (fun e => e.label)
      = [some "Vehicle", some "Vehicle"] := by decide
  refine ⟨hmap, ?_⟩
  rw [← List.chain'_map (fun e : SEvent => e.label), hmap]
  simp

/-- C10: every event emitted by `identify_sound_events` has a non-null
label — the guard `if current_label and ...` skips `None`-labelled runs —
and in particular a 4-segment `None` run (longer than the threshold)
produces no event at all. -/
theorem c10_no_null_label_events :
    (∀ (df : List Row) (mc : Nat),
        ((identify_sound_events df mc).all (fun e => e.label.isSome)) = true)
    ∧ identify_sound_events exNoneRun 3 = [] := by
  constructor
  · intro df mc
    refine identify_all ?_ df
    intro cl cs hcl _
    cases cl with
    | none => simp [truthyLabel] at hcl
    | some s₁ => simp [mkEvent]
  · decide

/-! ### Helper lemmas — classification buckets (C4) -/

theorem mem_of_mem_uniqFirstAux {α : Type _} [DecidableEq α] {x : α} :
    ∀ {l seen : List α}, x ∈ uniqFirstAux seen l → x ∈ l := by
  intro l
  induction l with
  | nil => intro seen h; simp [uniqFirstAux] at h
  | cons a t ih =>
    intro seen h
    rw [uniqFirstAux] at h
    split_ifs at h with ha
    · exact List.mem_cons_of_mem a (ih h)
    · rcases List.mem_cons.mp h with rfl | h2
      · exact List.mem_cons_self _ _
      · exact List.mem_cons_of_mem a (ih h2)

theorem not_mem_seen_of_mem_uniqFirstAux {α : Type _} [DecidableEq α] {x : α} :
    ∀ {l seen : List α}, x ∈ uniqFirstAux seen l → x ∉ seen := by
  intro l
  induction l with
  | nil => intro seen h; simp [uniqFirstAux] at h
  | cons a t ih =>
    intro seen h
    rw [uniqFirstAux] at h
    split_ifs at h with ha
    · exact ih h
    · rcases List.mem_cons.mp h with rfl | h2
      · exact ha
      · intro hx
        exact (ih h2) (List.mem_cons_of_mem a hx)

theorem uniqFirstAux_nodup {α : Type _} [DecidableEq α] :
    ∀ (l seen : List α), (uniqFirstAux seen l).Nodup := by
  intro l
  induction l with
  | nil => intro seen; simp [uniqFirstAux]
  | cons a t ih =>
    intro seen
    rw [uniqFirstAux]
    split_ifs with ha
    · exact ih seen
    · refine List.nodup_cons.mpr ⟨?_, ih (a :: seen)⟩
      intro hmem
      exact not_mem_seen_of_mem_uniqFirstAux hmem (List.mem_cons_self a seen)

theorem uniqFirst_nodup {α : Type _} [DecidableEq α] (l : List α) :
    (uniqFirst l).Nodup :=
  uniqFirstAux_nodup l []

theorem value_counts_keys_nodup (items : List String) :
    ((value_counts items).map Prod.fst).Nodup := by
  unfold value_counts
  have hperm : List.Perm
      ((((uniqFirst items).map (fun l => (l, items.count l))).insertionSort
        (fun a b => b.2 ≤ a.2)).map Prod.fst)
      (((uniqFirst items).map (fun l => (l, items.count l))).map Prod.fst) :=
    (List.perm_insertionSort _ _).map _
  rw [List.Perm.nodup_iff hperm, List.map_map]
  have he : (Prod.fst ∘ fun l : String => (l, items.count l)) = id := rfl
  rw [he, List.map_id]
  exact uniqFirst_nodup _

theorem top_sounds_labels_nodup (df : List Row) (n : Nat) :
    ((calculate_top_sounds df n).map SoundInfo.label).Nodup := by
  cases df with
  | nil => simp [calculate_top_sounds]
  | cons r t =>
    show ((((value_counts ((r :: t).filterMap Row.top_label)).take n).map
      (fun p => mkSoundInfo (r :: t) p.1 p.2)).map SoundInfo.label).Nodup
    rw [List.map_map]
    have he : (SoundInfo.label ∘ fun p : String × Nat => mkSoundInfo (r :: t) p.1 p.2)
        = Prod.fst := rfl
    rw [he, List.map_take]
    exact List.Nodup.sublist (List.take_sublist _ _) (value_counts_keys_nodup _)

/-- Invariant of the `classify_sounds_for_report` fold: with pairwise
distinct sound labels, none of which is already in a bucket, and `normaux`
disjoint from the other two buckets, the fold keeps `normaux` disjoint from
both. -/
theorem classify_fold_inv :
    ∀ (sounds : List SoundInfo) (n e p : List String),
      (sounds.map SoundInfo.label).Nodup →
      (∀ s ∈ sounds, s.label ∉ n ∧ s.label ∉ e ∧ s.label ∉ p) →
      (∀ l ∈ n, l ∉ e ∧ l ∉ p) →
      ∀ l ∈ (sounds.foldl classifyStep (n, e, p)).1,
        l ∉ (sounds.foldl classifyStep (n, e, p)).2.1
        ∧ l ∉ (sounds.foldl classifyStep (n, e, p)).2.2 := by
  intro sounds
  induction sounds with
  | nil => intro n e p _ _ hinv; simpa using hinv
  | cons s t ih =>
    intro n e p hnd hfresh hinv
    rw [List.map_cons, List.nodup_cons] at hnd
    obtain ⟨hsl, hndt⟩ := hnd
    have hs := hfresh s (List.mem_cons_self s t)
    have hfresh_t : ∀ s' ∈ t, s'.label ≠ s.label
        ∧ (s'.label ∉ n ∧ s'.label ∉ e ∧ s'.label ∉ p) := by
      intro s' hs'
      refine ⟨?_, hfresh s' (List.mem_cons_of_mem s hs')⟩
      intro hEq
      exact hsl (hEq ▸ List.mem_map_of_mem SoundInfo.label hs')
    have freshN : ∀ s' ∈ t, s'.label ∉ n ++ [s.label]
        ∧ s'.label ∉ e ∧ s'.label ∉ p := by
      intro s' hs'
      obtain ⟨hne, hf1, hf2, hf3⟩ := hfresh_t s' hs'
      exact ⟨by simp [List.mem_append, hf1, hne], hf2, hf3⟩
    have invN : ∀ l ∈ n ++ [s.label], l ∉ e ∧ l ∉ p := by
      intro l hl
      rcases List.mem_append.mp hl with hl | hl
      · exact hinv l hl
      · have hleq : l = s.label := by simpa using hl
        subst hleq
        exact ⟨hs.2.1, hs.2.2⟩
    have freshEP : ∀ s' ∈ t, s'.label ∉ n
        ∧ s'.label ∉ e ++ [s.label] ∧ s'.label ∉ p ++ [s.label] := by
      intro s' hs'
      obtain ⟨hne, hf1, hf2, hf3⟩ := hfresh_t s' hs'
      exact ⟨hf1, by simp [List.mem_append, hf2, hne],
        by simp [List.mem_append, hf3, hne]⟩
    have invEP : ∀ l ∈ n, l ∉ e ++ [s.label] ∧ l ∉ p ++ [s.label] := by
      intro l hl
      have hlne : l ≠ s.label := fun hEq => hs.1 (hEq ▸ hl)
      obtain ⟨h1, h2⟩ := hinv l hl
      exact ⟨by simp [List.mem_append, h1, hlne],
        by simp [List.mem_append, h2, hlne]⟩
    have freshE : ∀ s' ∈ t, s'.label ∉ n
        ∧ s'.label ∉ e ++ [s.label] ∧ s'.label ∉ p := by
      intro s' hs'
      obtain ⟨hne, hf1, hf2, hf3⟩ := hfresh_t s' hs'
      exact ⟨hf1, by simp [List.mem_append, hf2, hne], hf3⟩
    have invE : ∀ l ∈ n, l ∉ e ++ [s.label] ∧ l ∉ p := by
      intro l hl
      have hlne : l ≠ s.label := fun hEq => hs.1 (hEq ▸ hl)
      obtain ⟨h1, h2⟩ := hinv l hl
      exact ⟨by simp [List.mem_append, h1, hlne], h2⟩
    rw [List.foldl_cons]
    simp only [classifyStep]
    split_ifs with h1 h2 h3 h4
    · exact ih _ _ _ hndt freshN invN
    · exact ih _ _ _ hndt freshEP invEP
    · exact ih _ _ _ hndt freshE invE
    · exact ih _ _ _ hndt freshN invN
    · exact ih _ _ _ hndt freshE invE

/-- C4 (amended): `normaux` never shares a label with `exceptionnels` nor
with `problematiques_frequents` — but the latter two may overlap: a
problematic sound above 5 % is put in both, as `c4_counterexample` shows,
so the original three-way mutual exclusivity fails. -/
theorem c4_buckets :
    ∀ df : List Row,
      ((classify_sounds_for_report df).normaux.all (fun l =>
        !(decide (l ∈ (classify_sounds_for_report df).exceptionnels))
        && !(decide (l ∈ (classify_sounds_for_report df).problematiques_frequents))))
      = true := by
  intro df
  rw [List.all_eq_true]
  intro l hl
  have key := classify_fold_inv (calculate_top_sounds df 30) [] [] []
    (top_sounds_labels_nodup df 30) (by simp) (by simp)
  simp only [classify_sounds_for_report] at hl ⊢
  have hmem : l ∈ ((calculate_top_sounds df 30).foldl classifyStep ([], [], [])).1 :=
    List.take_subset _ _ hl
  obtain ⟨he, hp⟩ := key l hmem
  have he10 : l ∉ (((calculate_top_sounds df 30).foldl classifyStep
      ([], [], [])).2.1.take 10) :=
    fun h => he (List.take_subset _ _ h)
  simp [he10, hp]

/-- C4 counterexample: on a table whose only sound is the problematic
"Vehicle" at 100 %, the label lands in both `exceptionnels` and
`problematiques_frequents`, so the buckets are not pairwise disjoint. -/
theorem c4_counterexample :
    "Vehicle" ∈ (classify_sounds_for_report df3V).exceptionnels
    ∧ "Vehicle" ∈ (classify_sounds_for_report df3V).problematiques_frequents := by
  have hvc : value_counts (df3V.filterMap Row.top_label) = [("Vehicle", 3)] := by
    decide
  have h1 : calculate_top_sounds df3V 30 = [mkSoundInfo df3V "Vehicle" 3] := by
    show ((value_counts (df3V.filterMap Row.top_label)).take 30).map
      (fun p => mkSoundInfo df3V p.1 p.2) = _
    rw [hvc]
    rfl
  have hnormal : (mkSoundInfo df3V "Vehicle" 3).is_normal = false := by decide
  have hprob : (mkSoundInfo df3V "Vehicle" 3).is_problematic = true := by decide
  have hpct : (mkSoundInfo df3V "Vehicle" 3).percentage = 100 := by
    simp only [mkSoundInfo, df3V]
    norm_num [round1, round_eq]
  have hlabel : (mkSoundInfo df3V "Vehicle" 3).label = "Vehicle" := rfl
  simp only [classify_sounds_for_report, h1, List.foldl_cons, List.foldl_nil,
    classifyStep]
  simp [hnormal, hprob, hpct, hlabel, show (5 : ℚ) < 100 by norm_num]
